import Mathlib

/-!
Shallow embedding of `pygdsii/elements.py`: the GDSII element-level decoder.

The record source (module `pygdsii/__init__.py`: the `GDSII` tag constants,
`RecordData` with its `check_tag` / `check_size` / `data` / `points`
accessors, `_ignore_record` and `FormatError`) is not part of the decoder
source; those pieces are modelled from the specification of the record
contract (spec §3, §4.2, §6).  Everything else is translated directly from
`elements.py`.

Python exceptions are modelled with `Except Err`; a stream of records is a
`List Record` consumed from the front, so `next(recs)` is pattern matching
on the list and exhaustion is `stopIteration` (the spec's
`PrematureEndOfStream`, produced by the record source).
-/

/-- Modelled from the spec: the closed set of record tags used by this core
(spec §3 "Tag: an enumerated integer... Closed, fixed set").  The numeric
values of the `GDSII` constants live in the record-source module; only
their identity matters to the decoder, so the tags are an enumeration.
`HEADER` and `BGNLIB` stand for the remaining tags that are not used by the
element decoder. -/
inductive Tag where
  | BOUNDARY | PATH | SREF | AREF | TEXT | NODE | BOX
  | ELFLAGS | PLEX
  | LAYER | DATATYPE | XY | ENDEL
  | PROPATTR | PROPVALUE
  | PATHTYPE | WIDTH | BGNEXTN | ENDEXTN
  | SNAME | STRANS | MAG | ANGLE | COLROW
  | TEXTTYPE | PRESENTATION | STRING
  | NODETYPE | BOXTYPE
  | HEADER | BGNLIB
  deriving DecidableEq, Repr

/-- Modelled from the spec: a record's payload is an integer list, a
fixed-point real list or a byte string (spec §3 "data: IntegerList |
RealList | ByteString"); reals are represented by rationals, bytes by
naturals. -/
inductive Data where
  | ints (xs : List Int)
  | reals (xs : List Rat)
  | bytes (bs : List Nat)
  deriving DecidableEq, Repr

/-- Modelled from the spec: one decoded (tag, payload) record produced by
the external record source (spec §3). -/
structure Record where
  tag : Tag
  data : Data
  deriving DecidableEq, Repr

/-- Error kinds.  `unexpectedTag` and `sizeMismatch` are raised by the
record contract's tag-check and size-check operations (spec §6, §7);
`formatError msg` is a `FormatError` raised with message `msg` inside
`elements.py`; `keyError`, `typeError` and `indexError` are the Python
runtime exceptions of those names; `stopIteration` is raised by `next` on
an exhausted record generator (the spec's `PrematureEndOfStream`). -/
inductive Err where
  | unexpectedTag
  | sizeMismatch
  | formatError (msg : String)
  | keyError
  | typeError
  | indexError
  | stopIteration
  deriving DecidableEq, Repr

/-- Length of a record's payload, as Python's `len(self.data)`. -/
def Data.size : Data → Nat
  | .ints xs => xs.length
  | .reals xs => xs.length
  | .bytes bs => bs.length

/-- Modelled from the spec: the record contract's size-check operation —
"fails with a descriptive error if the data length does not equal an
expected count" (spec §6), kind `SizeMismatch` (spec §7). -/
def Record.check_size (rec : Record) (n : Nat) : Except Err Unit :=
  if rec.data.size = n then .ok () else .error .sizeMismatch

/-- Modelled from the spec: the record contract's tag-check operation —
"fails if the tag does not equal an expected value" (spec §6), kind
`UnexpectedTag` (spec §7). -/
def Record.check_tag (rec : Record) (t : Tag) : Except Err Unit :=
  if rec.tag = t then .ok () else .error .unexpectedTag

/-- Modelled from the spec: the typed integer accessor `rec.data[0]` on an
integer-payload record (spec §6 "typed accessors for integer/real/byte
data"); indexing an empty sequence is Python's `IndexError`. -/
def Record.int0 (rec : Record) : Except Err Int :=
  match rec.data with
  | .ints (x :: _) => .ok x
  | .ints [] => .error .indexError
  | _ => .error .typeError

/-- Modelled from the spec: the typed real accessor `rec.data[0]` on a
real-payload record (spec §6). -/
def Record.real0 (rec : Record) : Except Err Rat :=
  match rec.data with
  | .reals (x :: _) => .ok x
  | .reals [] => .error .indexError
  | _ => .error .typeError

/-- Pair consecutive integers into 2D points. -/
def pairUp : List Int → List (Int × Int)
  | x :: y :: rest => (x, y) :: pairUp rest
  | _ => []

/-- Modelled from the spec: the derived point-list accessor `rec.points`,
"a derived list of 2D integer points when the tag represents coordinate
data" (spec §2, §6). -/
def Record.points (rec : Record) : List (Int × Int) :=
  match rec.data with
  | .ints xs => pairUp xs
  | _ => []

/-- `next(recs)` on the record generator: the head of the remaining list,
or `StopIteration` when the stream is exhausted. -/
def nextRec : List Record → Except Err (Record × List Record)
  | [] => .error .stopIteration
  | rec :: rest => .ok (rec, rest)

/-- Modelled from the spec: `_ignore_record` from the record-source module
— the common prefix parser's one step: if the current record carries the
given optional tag it is consumed and the next record is returned,
otherwise the current record is returned unconsumed (spec §4.2). -/
def ignoreRecord (recs : List Record) (rec : Record) (t : Tag) :
    Except Err (Record × List Record) :=
  if rec.tag = t then nextRec recs else .ok (rec, recs)

/-- The `_properties` attribute.  In Python it is whatever object was
passed as the `properties` keyword argument, defaulting to the *list*
literal `[]` (`elements.py` line 36); the trailer parser then uses it as a
mapping.  Both shapes are represented. -/
inductive Props where
  | plist (l : List Data)
  | pdict (m : List (Int × Data))
  deriving DecidableEq, Repr

/-- Keyword arguments accepted by the element constructors: every
`kwargs.get` key that appears in `elements.py`, each optional. -/
structure Kwargs where
  properties : Option Props := none
  layer : Option Int := none
  data_type : Option Int := none
  path_type : Option Int := none
  width : Option Int := none
  bgn_extn : Option Int := none
  end_extn : Option Int := none
  points : Option (List (Int × Int)) := none
  struct_name : Option Data := none
  strans : Option Data := none
  mag : Option Rat := none
  angle : Option Rat := none
  cols : Option Int := none
  rows : Option Int := none
  text_type : Option Int := none
  presentation : Option Data := none
  string : Option Data := none
  node_type : Option Int := none
  box_type : Option Int := none

/-- `BOUNDARY` element: fields of `BoundaryElement` with its inherited
`ElementWithLayerAndDataType` and `ElementBase` slots flattened. -/
structure BoundaryElement where
  properties : Props
  layer : Int
  data_type : Int
  points : List (Int × Int)
  deriving DecidableEq, Repr

/-- `PATH` element (`PathElement`). -/
structure PathElement where
  properties : Props
  layer : Int
  data_type : Int
  path_type : Option Int
  width : Option Int
  bgn_extn : Option Int
  end_extn : Option Int
  points : List (Int × Int)
  deriving DecidableEq, Repr

/-- `SREF` element (`SRefElement`). -/
structure SRefElement where
  properties : Props
  struct_name : Data
  strans : Option Data
  mag : Option Rat
  angle : Option Rat
  points : List (Int × Int)
  deriving DecidableEq, Repr

/-- `AREF` element (`ARefElement`, extending `SRefElement`). -/
structure ARefElement where
  properties : Props
  struct_name : Data
  strans : Option Data
  mag : Option Rat
  angle : Option Rat
  points : List (Int × Int)
  cols : Int
  rows : Int
  deriving DecidableEq, Repr

/-- `TEXT` element (`TextElement`). -/
structure TextElement where
  properties : Props
  layer : Int
  text_type : Int
  presentation : Option Data
  path_type : Option Int
  width : Option Int
  strans : Option Data
  mag : Option Rat
  angle : Option Rat
  points : List (Int × Int)
  string : Data
  deriving DecidableEq, Repr

/-- `NODE` element (`NodeElement`). -/
structure NodeElement where
  properties : Props
  layer : Int
  node_type : Int
  points : List (Int × Int)
  deriving DecidableEq, Repr

/-- `BOX` element (`BoxElement`). -/
structure BoxElement where
  properties : Props
  layer : Int
  box_type : Int
  points : List (Int × Int)
  deriving DecidableEq, Repr

/-- `BoundaryElement.__init__`: the constructor chain
`ElementBase.__init__` / `ElementWithLayer.__init__` /
`ElementWithLayerAndDataType.__init__` / `BoundaryElement.__init__`,
each reading its keyword arguments with defaults.  No validation of
`points` is performed (source comment: `# invalid!  TODO check if passed
points are valid`). -/
def BoundaryElement.init (k : Kwargs) : BoundaryElement :=
  { properties := k.properties.getD (.plist [])
    layer := k.layer.getD 0
    data_type := k.data_type.getD 0
    points := k.points.getD [] }

/-- `PathElement.__init__`. -/
def PathElement.init (k : Kwargs) : PathElement :=
  { properties := k.properties.getD (.plist [])
    layer := k.layer.getD 0
    data_type := k.data_type.getD 0
    path_type := k.path_type
    width := k.width
    bgn_extn := k.bgn_extn
    end_extn := k.end_extn
    points := k.points.getD [] }

/-- `SRefElement.__init__`. -/
def SRefElement.init (k : Kwargs) : SRefElement :=
  { properties := k.properties.getD (.plist [])
    struct_name := k.struct_name.getD (.bytes [])
    strans := k.strans
    mag := k.mag
    angle := k.angle
    points := k.points.getD [] }

/-- `ARefElement.__init__`. -/
def ARefElement.init (k : Kwargs) : ARefElement :=
  { properties := k.properties.getD (.plist [])
    struct_name := k.struct_name.getD (.bytes [])
    strans := k.strans
    mag := k.mag
    angle := k.angle
    points := k.points.getD []
    cols := k.cols.getD 1
    rows := k.rows.getD 1 }

/-- `TextElement.__init__`. -/
def TextElement.init (k : Kwargs) : TextElement :=
  { properties := k.properties.getD (.plist [])
    layer := k.layer.getD 0
    text_type := k.text_type.getD 0
    presentation := k.presentation
    path_type := k.path_type
    width := k.width
    strans := k.strans
    mag := k.mag
    angle := k.angle
    points := k.points.getD []
    string := k.string.getD (.bytes []) }

/-- `NodeElement.__init__`. -/
def NodeElement.init (k : Kwargs) : NodeElement :=
  { properties := k.properties.getD (.plist [])
    layer := k.layer.getD 0
    node_type := k.node_type.getD 0
    points := k.points.getD [] }

/-- `BoxElement.__init__`. -/
def BoxElement.init (k : Kwargs) : BoxElement :=
  { properties := k.properties.getD (.plist [])
    layer := k.layer.getD 0
    box_type := k.box_type.getD 0
    points := k.points.getD [] }

/-- `ElementBase._read_start`: "Ignores common optional records and returns
next one" — skip an optional `ELFLAGS` record, then an optional `PLEX`
record, returning the first record that is neither together with the rest
of the stream. -/
def ElementBase.read_start (recs : List Record) :
    Except Err (Record × List Record) := do
  let (rec, recs) ← nextRec recs
  let (rec, recs) ← ignoreRecord recs rec .ELFLAGS
  ignoreRecord recs rec .PLEX

/-- `ElementBase._read_rest`: "Reads properties and `ENDEL`".  The source
loop reads a record; on `PROPATTR` it checks size 1, takes the key, and
then executes `rec = next(rec)` — `next` applied to the *record* object
instead of the generator `recs`, which raises `TypeError` because a record
is not an iterator, so the `PROPVALUE` check and the store into
`self._properties` that follow are unreachable; on `ENDEL` it stops; on any
other tag it raises `FormatError`. -/
def ElementBase.read_rest (props : Props) (recs : List Record) :
    Except Err (Props × List Record) := do
  let (rec, recs) ← nextRec recs
  if rec.tag = .PROPATTR then do
    let _ ← rec.check_size 1
    let _propattr ← rec.int0
    .error .typeError
  else if rec.tag = .ENDEL then
    return (props, recs)
  else
    .error (.formatError "unexpected tag where PROPATTR or ENDEL are expected")

/-- `ElementWithLayer._read_start`: common prefix, then a mandatory `LAYER`
record of size 1; returns the layer value. -/
def ElementWithLayer.read_start (recs : List Record) :
    Except Err (Int × List Record) := do
  let (rec, recs) ← ElementBase.read_start recs
  let _ ← rec.check_tag .LAYER
  let _ ← rec.check_size 1
  let v ← rec.int0
  return (v, recs)

/-- `ElementWithLayerAndDataType._read_start`: layer prefix, then a
mandatory `DATATYPE` record of size 1; returns layer and data type. -/
def ElementWithLayerAndDataType.read_start (recs : List Record) :
    Except Err (Int × Int × List Record) := do
  let (l, recs) ← ElementWithLayer.read_start recs
  let (rec, recs) ← nextRec recs
  let _ ← rec.check_tag .DATATYPE
  let _ ← rec.check_size 1
  let d ← rec.int0
  return (l, d, recs)

/-- `BoundaryElement.read_element`. -/
def BoundaryElement.read_element (self : BoundaryElement)
    (recs : List Record) : Except Err (BoundaryElement × List Record) := do
  let (l, d, recs) ← ElementWithLayerAndDataType.read_start recs
  let self := { self with layer := l, data_type := d }
  let (rec, recs) ← nextRec recs
  let _ ← rec.check_tag .XY
  let self := { self with points := rec.points }
  if self.points.length < 4 then
    .error (.formatError "less then 4 points in BOUNDARY")
  else do
    let (props, recs) ← ElementBase.read_rest self.properties recs
    return ({ self with properties := props }, recs)

/-- `PathElement.read_element`: four optional single-value records in the
fixed order `PATHTYPE`, `WIDTH`, `BGNEXTN`, `ENDEXTN`, then the mandatory
`XY` record with at least 2 points, then the common trailer. -/
def PathElement.read_element (self : PathElement) (recs : List Record) :
    Except Err (PathElement × List Record) := do
  let (l, d, recs) ← ElementWithLayerAndDataType.read_start recs
  let self := { self with layer := l, data_type := d }
  let (rec, recs) ← nextRec recs
  let (self, rec, recs) ←
    if rec.tag = .PATHTYPE then do
      let _ ← rec.check_size 1
      let v ← rec.int0
      let (rec, recs) ← nextRec recs
      pure ({ self with path_type := some v }, rec, recs)
    else pure (self, rec, recs)
  let (self, rec, recs) ←
    if rec.tag = .WIDTH then do
      let _ ← rec.check_size 1
      let v ← rec.int0
      let (rec, recs) ← nextRec recs
      pure ({ self with width := some v }, rec, recs)
    else pure (self, rec, recs)
  let (self, rec, recs) ←
    if rec.tag = .BGNEXTN then do
      let _ ← rec.check_size 1
      let v ← rec.int0
      let (rec, recs) ← nextRec recs
      pure ({ self with bgn_extn := some v }, rec, recs)
    else pure (self, rec, recs)
  let (self, rec, recs) ←
    if rec.tag = .ENDEXTN then do
      let _ ← rec.check_size 1
      let v ← rec.int0
      let (rec, recs) ← nextRec recs
      pure ({ self with end_extn := some v }, rec, recs)
    else pure (self, rec, recs)
  let _ ← rec.check_tag .XY
  let self := { self with points := rec.points }
  if self.points.length < 2 then
    .error (.formatError "less then 2 points in PATH")
  else do
    let (props, recs) ← ElementBase.read_rest self.properties recs
    return ({ self with properties := props }, recs)

/-- `SRefElement._read_start`: common prefix, mandatory `SNAME`, then the
optional transform block — `STRANS`, inside which `MAG` and then `ANGLE`
are each optionally consumed; returns the element, the next unconsumed
record, and the rest of the stream. -/
def SRefElement.read_start (self : SRefElement) (recs : List Record) :
    Except Err (SRefElement × Record × List Record) := do
  let (rec, recs) ← ElementBase.read_start recs
  let _ ← rec.check_tag .SNAME
  let self := { self with struct_name := rec.data }
  let (rec, recs) ← nextRec recs
  if rec.tag = .STRANS then do
    let self := { self with strans := some rec.data }
    let (rec, recs) ← nextRec recs
    let (self, rec, recs) ←
      if rec.tag = .MAG then do
        let _ ← rec.check_size 1
        let v ← rec.real0
        let (rec, recs) ← nextRec recs
        pure ({ self with mag := some v }, rec, recs)
      else pure (self, rec, recs)
    if rec.tag = .ANGLE then do
      let _ ← rec.check_size 1
      let v ← rec.real0
      let (rec, recs) ← nextRec recs
      pure ({ self with angle := some v }, rec, recs)
    else pure (self, rec, recs)
  else
    pure (self, rec, recs)

/-- `SRefElement.read_element`. -/
def SRefElement.read_element (self : SRefElement) (recs : List Record) :
    Except Err (SRefElement × List Record) := do
  let (self, rec, recs) ← SRefElement.read_start self recs
  let _ ← rec.check_tag .XY
  let self := { self with points := rec.points }
  if self.points.length ≠ 1 then
    .error (.formatError "SREF should contain 1 point")
  else do
    let (props, recs) ← ElementBase.read_rest self.properties recs
    return ({ self with properties := props }, recs)

/-- `SRefElement._read_start` as inherited by `ARefElement`: identical
record grammar, acting on the `ARefElement` fields. -/
def ARefElement.read_start (self : ARefElement) (recs : List Record) :
    Except Err (ARefElement × Record × List Record) := do
  let (rec, recs) ← ElementBase.read_start recs
  let _ ← rec.check_tag .SNAME
  let self := { self with struct_name := rec.data }
  let (rec, recs) ← nextRec recs
  if rec.tag = .STRANS then do
    let self := { self with strans := some rec.data }
    let (rec, recs) ← nextRec recs
    let (self, rec, recs) ←
      if rec.tag = .MAG then do
        let _ ← rec.check_size 1
        let v ← rec.real0
        let (rec, recs) ← nextRec recs
        pure ({ self with mag := some v }, rec, recs)
      else pure (self, rec, recs)
    if rec.tag = .ANGLE then do
      let _ ← rec.check_size 1
      let v ← rec.real0
      let (rec, recs) ← nextRec recs
      pure ({ self with angle := some v }, rec, recs)
    else pure (self, rec, recs)
  else
    pure (self, rec, recs)

/-- The tuple unpacking `self._cols, self._rows = rec.data`: succeeds on a
two-integer payload; any other payload shape is a Python runtime error
(modelled as `typeError`), though `check_size(2)` runs first in the
source. -/
def Record.int2 (rec : Record) : Except Err (Int × Int) :=
  match rec.data with
  | .ints [c, r] => .ok (c, r)
  | _ => .error .typeError

/-- `ARefElement.read_element`: reference start (with transform block),
then mandatory `COLROW` of size 2, then mandatory `XY` with exactly 3
points, then the common trailer. -/
def ARefElement.read_element (self : ARefElement) (recs : List Record) :
    Except Err (ARefElement × List Record) := do
  let (self, rec, recs) ← ARefElement.read_start self recs
  let _ ← rec.check_tag .COLROW
  let _ ← rec.check_size 2
  let (c, r) ← rec.int2
  let self := { self with cols := c, rows := r }
  let (rec, recs) ← nextRec recs
  let _ ← rec.check_tag .XY
  let self := { self with points := rec.points }
  if self.points.length ≠ 3 then
    .error (.formatError "AREF should contain 3 points")
  else do
    let (props, recs) ← ElementBase.read_rest self.properties recs
    return ({ self with properties := props }, recs)

/-- `TextElement.read_element`: layer prefix, mandatory `TEXTTYPE`, then
optional `PRESENTATION`, `PATHTYPE`, `WIDTH` and the optional transform
block, then mandatory `XY` with exactly 1 point, mandatory `STRING`, then
the common trailer. -/
def TextElement.read_element (self : TextElement) (recs : List Record) :
    Except Err (TextElement × List Record) := do
  let (l, recs) ← ElementWithLayer.read_start recs
  let self := { self with layer := l }
  let (rec, recs) ← nextRec recs
  let _ ← rec.check_tag .TEXTTYPE
  let _ ← rec.check_size 1
  let tt ← rec.int0
  let self := { self with text_type := tt }
  let (rec, recs) ← nextRec recs
  let (self, rec, recs) ←
    if rec.tag = .PRESENTATION then do
      let (rec2, recs) ← nextRec recs
      pure ({ self with presentation := some rec.data }, rec2, recs)
    else pure (self, rec, recs)
  let (self, rec, recs) ←
    if rec.tag = .PATHTYPE then do
      let _ ← rec.check_size 1
      let v ← rec.int0
      let (rec, recs) ← nextRec recs
      pure ({ self with path_type := some v }, rec, recs)
    else pure (self, rec, recs)
  let (self, rec, recs) ←
    if rec.tag = .WIDTH then do
      let _ ← rec.check_size 1
      let v ← rec.int0
      let (rec, recs) ← nextRec recs
      pure ({ self with width := some v }, rec, recs)
    else pure (self, rec, recs)
  let (self, rec, recs) ←
    if rec.tag = .STRANS then do
      let self := { self with strans := some rec.data }
      let (rec, recs) ← nextRec recs
      let (self, rec, recs) ←
        if rec.tag = .MAG then do
          let _ ← rec.check_size 1
          let v ← rec.real0
          let (rec, recs) ← nextRec recs
          pure ({ self with mag := some v }, rec, recs)
        else pure (self, rec, recs)
      if rec.tag = .ANGLE then do
        let _ ← rec.check_size 1
        let v ← rec.real0
        let (rec, recs) ← nextRec recs
        pure ({ self with angle := some v }, rec, recs)
      else pure (self, rec, recs)
    else pure (self, rec, recs)
  let _ ← rec.check_tag .XY
  let self := { self with points := rec.points }
  if self.points.length ≠ 1 then
    .error (.formatError "TEXT should contain 1 point")
  else do
    let (rec, recs) ← nextRec recs
    let _ ← rec.check_tag .STRING
    let self := { self with string := rec.data }
    let (props, recs) ← ElementBase.read_rest self.properties recs
    return ({ self with properties := props }, recs)

/-- `NodeElement.read_element`: layer prefix, mandatory `NODETYPE`, then
mandatory `XY` with at least 1 point, then the common trailer. -/
def NodeElement.read_element (self : NodeElement) (recs : List Record) :
    Except Err (NodeElement × List Record) := do
  let (l, recs) ← ElementWithLayer.read_start recs
  let self := { self with layer := l }
  let (rec, recs) ← nextRec recs
  let _ ← rec.check_tag .NODETYPE
  let _ ← rec.check_size 1
  let v ← rec.int0
  let self := { self with node_type := v }
  let (rec, recs) ← nextRec recs
  let _ ← rec.check_tag .XY
  let self := { self with points := rec.points }
  if self.points.length < 1 then
    .error (.formatError "NODE should contain at least 1 point")
  else do
    let (props, recs) ← ElementBase.read_rest self.properties recs
    return ({ self with properties := props }, recs)

/-- `BoxElement.read_element`: layer prefix, mandatory `BOXTYPE`, then
mandatory `XY` with exactly 5 points, then the common trailer. -/
def BoxElement.read_element (self : BoxElement) (recs : List Record) :
    Except Err (BoxElement × List Record) := do
  let (l, recs) ← ElementWithLayer.read_start recs
  let self := { self with layer := l }
  let (rec, recs) ← nextRec recs
  let _ ← rec.check_tag .BOXTYPE
  let _ ← rec.check_size 1
  let v ← rec.int0
  let self := { self with box_type := v }
  let (rec, recs) ← nextRec recs
  let _ ← rec.check_tag .XY
  let self := { self with points := rec.points }
  if self.points.length ≠ 5 then
    .error (.formatError "BOX should contain 5 points")
  else do
    let (props, recs) ← ElementBase.read_rest self.properties recs
    return ({ self with properties := props }, recs)

/-- The decoded element handed to the caller: one of the seven variants. -/
inductive Element where
  | boundary (e : BoundaryElement)
  | path (e : PathElement)
  | sref (e : SRefElement)
  | aref (e : ARefElement)
  | text (e : TextElement)
  | node (e : NodeElement)
  | box (e : BoxElement)
  deriving DecidableEq, Repr

/-- The element classes stored as values of `_tag_to_class_map`. -/
inductive ElemClass where
  | boundaryC | pathC | srefC | arefC | textC | nodeC | boxC
  deriving DecidableEq, Repr

/-- `ElementBase._tag_to_class_map`: the static dictionary from the seven
element-start tags to element classes; lookup of any other tag misses. -/
def tag_to_class_map : Tag → Option ElemClass
  | .BOUNDARY => some .boundaryC
  | .PATH => some .pathC
  | .SREF => some .srefC
  | .AREF => some .arefC
  | .TEXT => some .textC
  | .NODE => some .nodeC
  | .BOX => some .boxC
  | _ => none

/-- `element_class()` followed by `new_element.read_element(recs)`: each
class is instantiated with no keyword arguments and then reads itself from
the stream. -/
def ElemClass.newAndRead : ElemClass → List Record →
    Except Err (Element × List Record)
  | .boundaryC, recs =>
    (BoundaryElement.read_element (BoundaryElement.init {}) recs).map
      (fun p => (.boundary p.1, p.2))
  | .pathC, recs =>
    (PathElement.read_element (PathElement.init {}) recs).map
      (fun p => (.path p.1, p.2))
  | .srefC, recs =>
    (SRefElement.read_element (SRefElement.init {}) recs).map
      (fun p => (.sref p.1, p.2))
  | .arefC, recs =>
    (ARefElement.read_element (ARefElement.init {}) recs).map
      (fun p => (.aref p.1, p.2))
  | .textC, recs =>
    (TextElement.read_element (TextElement.init {}) recs).map
      (fun p => (.text p.1, p.2))
  | .nodeC, recs =>
    (NodeElement.read_element (NodeElement.init {}) recs).map
      (fun p => (.node p.1, p.2))
  | .boxC, recs =>
    (BoxElement.read_element (BoxElement.init {}) recs).map
      (fun p => (.box p.1, p.2))

/-- `ElementBase.load`: dispatch on the first record's tag.  The source
subscripts the plain dictionary `cls._tag_to_class_map[lastrec.tag]`, so a
tag that is not a key raises `KeyError`; the subsequent guard
`if not element_class: raise FormatError('unexpected element tag')` is
unreachable, because a class object found in the dictionary is never
falsy. -/
def ElementBase.load (recs : List Record) (lastrec : Record) :
    Except Err (Element × List Record) :=
  match tag_to_class_map lastrec.tag with
  | none => .error .keyError
  | some c => c.newAndRead recs

/-! ### Stream-building helpers for the theorems -/

/-- A record with tag `t` carrying a single integer `v`. -/
def iRec (t : Tag) (v : Int) : Record := ⟨t, .ints [v]⟩

/-- A record with tag `t` carrying a single real `v`. -/
def rRec (t : Tag) (v : Rat) : Record := ⟨t, .reals [v]⟩

/-- Flatten a point list into the integer payload of an `XY` record. -/
def flattenPts : List (Int × Int) → List Int
  | [] => []
  | (x, y) :: ps => x :: y :: flattenPts ps

/-- An `XY` coordinate record carrying the given points. -/
def xyRec (ps : List (Int × Int)) : Record := ⟨.XY, .ints (flattenPts ps)⟩

/-- The `ENDEL` end-of-element marker record. -/
def endRec : Record := ⟨.ENDEL, .ints []⟩

/-- Deriving points from a flattened point list gives back the points. -/
theorem pairUp_flattenPts (ps : List (Int × Int)) :
    pairUp (flattenPts ps) = ps := by
  induction ps with
  | nil => rfl
  | cons p ps ih => cases p; simp [flattenPts, pairUp, ih]

/-- Records of an optional single-integer field: absent when `o` is
`none`, one record when present. -/
def optIntRec (t : Tag) (o : Option Int) : List Record :=
  match o with
  | none => []
  | some v => [iRec t v]

/-- An optional transform block: `STRANS` payload with optional `MAG` and
`ANGLE` values, or absent. -/
abbrev TransBlock : Type := Option (Data × Option Rat × Option Rat)

/-- Records of an optional transform block. -/
def transBlockRecs (tb : TransBlock) : List Record :=
  match tb with
  | none => []
  | some (s, m, a) =>
      ⟨.STRANS, s⟩ ::
        ((match m with | none => [] | some v => [rRec .MAG v]) ++
         (match a with | none => [] | some v => [rRec .ANGLE v]))

/-- The `strans` field value a transform block decodes to. -/
def TransBlock.strans : TransBlock → Option Data
  | none => none
  | some (s, _, _) => some s

/-- The `mag` field value a transform block decodes to. -/
def TransBlock.mag : TransBlock → Option Rat
  | none => none
  | some (_, m, _) => m

/-- The `angle` field value a transform block decodes to. -/
def TransBlock.angle : TransBlock → Option Rat
  | none => none
  | some (_, _, a) => a

/-! ### Claims -/

/-- C1: construction with keyword arguments performs no validation: the
constructors store the `points` keyword (or the default `[]`) unchecked
(source comments `# invalid!`, `# TODO check if passed points are valid`),
so `BoundaryElement(points=[(0, 0)])` returns an element with 1 point and
`BoundaryElement()` returns one with 0 points, both violating the ≥ 4
point-count constraint, and similarly for the other variants — construction
does not fail. -/
theorem c1_kwargs_construction_skips_validation :
    (BoundaryElement.init { points := some [(0, 0)] }).points = [(0, 0)] ∧
    (BoundaryElement.init {}).points = [] ∧
    (PathElement.init {}).points = [] ∧
    (SRefElement.init {}).points = [] ∧
    (ARefElement.init {}).points = [] ∧
    (TextElement.init {}).points = [] ∧
    (NodeElement.init {}).points = [] ∧
    (BoxElement.init {}).points = [] :=
  ⟨rfl, rfl, rfl, rfl, rfl, rfl, rfl, rfl⟩

/-- C2: the trailer parser cannot decode any property pair: on a
`PROPATTR` record it executes `rec = next(rec)` — `next` applied to the
record object instead of the generator — raising `TypeError`, so a valid
(key, value) pair followed by `ENDEL` fails instead of yielding a
Properties mapping, both in isolation and decoding a whole Boundary
element. -/
theorem c2_trailer_property_pair_raises :
    ElementBase.read_rest (.plist [])
      [iRec .PROPATTR 1, ⟨.PROPVALUE, .bytes [77]⟩, endRec] =
      .error .typeError ∧
    ElementBase.load
      [iRec .LAYER 1, iRec .DATATYPE 0,
        xyRec [(0, 0), (0, 10), (10, 10), (10, 0)],
        iRec .PROPATTR 1, ⟨.PROPVALUE, .bytes [77]⟩, endRec]
      ⟨.BOUNDARY, .ints []⟩ = .error .typeError :=
  ⟨rfl, rfl⟩

/-- C3: for every record whose tag is not one of the seven element-start
tags, `load` fails — but with Python's `KeyError` from the dictionary
subscript `cls._tag_to_class_map[lastrec.tag]`, not with the
`FormatError('unexpected element tag')`, whose guard is unreachable. -/
theorem c3_unknown_tag_raises_key_error :
    ∀ t : Tag,
      t ∉ [Tag.BOUNDARY, Tag.PATH, Tag.SREF, Tag.AREF, Tag.TEXT,
           Tag.NODE, Tag.BOX] →
      ∀ (d : Data) (recs : List Record),
        ElementBase.load recs ⟨t, d⟩ = .error .keyError := by
  intro t ht d recs
  cases t <;> simp_all [ElementBase.load, tag_to_class_map]

/-- C3 witness: the `LAYER` tag is not an element-start tag and `load`
fails with `KeyError` on it. -/
theorem c3_unknown_tag_raises_key_error_witness :
    Tag.LAYER ∉ [Tag.BOUNDARY, Tag.PATH, Tag.SREF, Tag.AREF, Tag.TEXT,
                 Tag.NODE, Tag.BOX] ∧
    ElementBase.load [] ⟨Tag.LAYER, .ints [1]⟩ = .error .keyError :=
  ⟨by decide,
    c3_unknown_tag_raises_key_error Tag.LAYER (by decide) (.ints [1]) []⟩

/-- C10: constructing each variant with no keyword arguments succeeds and
yields the concrete defaults — layer 0, data type 0, text/node/box type 0,
empty point list, empty struct name and string, cols 1, rows 1 — with all
optional fields absent. -/
theorem c10_no_kwargs_defaults :
    BoundaryElement.init {} = ⟨.plist [], 0, 0, []⟩ ∧
    PathElement.init {} = ⟨.plist [], 0, 0, none, none, none, none, []⟩ ∧
    SRefElement.init {} = ⟨.plist [], .bytes [], none, none, none, []⟩ ∧
    ARefElement.init {} = ⟨.plist [], .bytes [], none, none, none, [], 1, 1⟩ ∧
    TextElement.init {} =
      ⟨.plist [], 0, 0, none, none, none, none, none, none, [], .bytes []⟩ ∧
    NodeElement.init {} = ⟨.plist [], 0, 0, []⟩ ∧
    BoxElement.init {} = ⟨.plist [], 0, 0, []⟩ :=
  ⟨rfl, rfl, rfl, rfl, rfl, rfl, rfl⟩

/-- C4: for every variant, a stream whose coordinate record carries a
point list violating the variant's count constraint (Boundary < 4,
Path < 2, StructureRef ≠ 1, ArrayRef ≠ 3, Text ≠ 1, Node < 1, Box ≠ 5)
fails with the variant's point-count `FormatError` and yields no
element. -/
theorem c4_point_count_violation :
    (∀ ps : List (Int × Int), ps.length < 4 →
      ElementBase.load [iRec .LAYER 1, iRec .DATATYPE 0, xyRec ps, endRec]
        ⟨.BOUNDARY, .ints []⟩ =
        .error (.formatError "less then 4 points in BOUNDARY")) ∧
    (∀ ps : List (Int × Int), ps.length < 2 →
      ElementBase.load [iRec .LAYER 1, iRec .DATATYPE 0, xyRec ps, endRec]
        ⟨.PATH, .ints []⟩ =
        .error (.formatError "less then 2 points in PATH")) ∧
    (∀ ps : List (Int × Int), ps.length ≠ 1 →
      ElementBase.load [⟨.SNAME, .bytes [65]⟩, xyRec ps, endRec]
        ⟨.SREF, .ints []⟩ =
        .error (.formatError "SREF should contain 1 point")) ∧
    (∀ ps : List (Int × Int), ps.length ≠ 3 →
      ElementBase.load
        [⟨.SNAME, .bytes [65]⟩, ⟨.COLROW, .ints [2, 3]⟩, xyRec ps, endRec]
        ⟨.AREF, .ints []⟩ =
        .error (.formatError "AREF should contain 3 points")) ∧
    (∀ ps : List (Int × Int), ps.length ≠ 1 →
      ElementBase.load
        [iRec .LAYER 1, iRec .TEXTTYPE 0, xyRec ps, ⟨.STRING, .bytes [77]⟩,
          endRec] ⟨.TEXT, .ints []⟩ =
        .error (.formatError "TEXT should contain 1 point")) ∧
    (∀ ps : List (Int × Int), ps.length < 1 →
      ElementBase.load [iRec .LAYER 1, iRec .NODETYPE 0, xyRec ps, endRec]
        ⟨.NODE, .ints []⟩ =
        .error (.formatError "NODE should contain at least 1 point")) ∧
    (∀ ps : List (Int × Int), ps.length ≠ 5 →
      ElementBase.load [iRec .LAYER 1, iRec .BOXTYPE 0, xyRec ps, endRec]
        ⟨.BOX, .ints []⟩ =
        .error (.formatError "BOX should contain 5 points")) := by
  refine ⟨?_, ?_, ?_, ?_, ?_, ?_, ?_⟩ <;> intro ps h <;>
    simp [ElementBase.load, tag_to_class_map, ElemClass.newAndRead,
      BoundaryElement.read_element, PathElement.read_element,
      SRefElement.read_element, ARefElement.read_element,
      TextElement.read_element, NodeElement.read_element,
      BoxElement.read_element, BoundaryElement.init, PathElement.init,
      SRefElement.init, ARefElement.init, TextElement.init,
      NodeElement.init, BoxElement.init, SRefElement.read_start,
      ARefElement.read_start, ElementWithLayerAndDataType.read_start,
      ElementWithLayer.read_start, ElementBase.read_start,
      ElementBase.read_rest, nextRec, ignoreRecord, Record.check_tag,
      Record.check_size, Record.int0, Record.real0, Record.int2,
      Record.points, Data.size, iRec, rRec, xyRec, endRec,
      pairUp_flattenPts, bind, Except.bind, pure, Except.pure,
      Functor.map, Except.map, h]

/-- C5: for every variant, a stream with the kind-specific mandatory
fields in required order and a satisfying point count decodes
successfully, every mandatory field equal to the supplied value; in
particular the concrete Boundary scenario with layer 1, datatype 0 and
the 4 points (0,0), (0,10), (10,10), (10,0) decodes to exactly those
values with empty properties. -/
theorem c5_mandatory_fields_decoded :
    (∀ (l d : Int) (p1 p2 p3 p4 : Int × Int) (ps : List (Int × Int)),
      ElementBase.load [iRec .LAYER l, iRec .DATATYPE d,
        xyRec (p1 :: p2 :: p3 :: p4 :: ps), endRec] ⟨.BOUNDARY, .ints []⟩ =
      .ok (.boundary ⟨.plist [], l, d, p1 :: p2 :: p3 :: p4 :: ps⟩, [])) ∧
    (∀ (l d : Int) (p1 p2 : Int × Int) (ps : List (Int × Int)),
      ElementBase.load [iRec .LAYER l, iRec .DATATYPE d,
        xyRec (p1 :: p2 :: ps), endRec] ⟨.PATH, .ints []⟩ =
      .ok (.path ⟨.plist [], l, d, none, none, none, none, p1 :: p2 :: ps⟩,
        [])) ∧
    (∀ (name : Data) (p : Int × Int),
      ElementBase.load [⟨.SNAME, name⟩, xyRec [p], endRec]
        ⟨.SREF, .ints []⟩ =
      .ok (.sref ⟨.plist [], name, none, none, none, [p]⟩, [])) ∧
    (∀ (name : Data) (c r : Int) (p1 p2 p3 : Int × Int),
      ElementBase.load [⟨.SNAME, name⟩, ⟨.COLROW, .ints [c, r]⟩,
        xyRec [p1, p2, p3], endRec] ⟨.AREF, .ints []⟩ =
      .ok (.aref ⟨.plist [], name, none, none, none, [p1, p2, p3], c, r⟩,
        [])) ∧
    (∀ (l tt : Int) (p : Int × Int) (str : Data),
      ElementBase.load [iRec .LAYER l, iRec .TEXTTYPE tt, xyRec [p],
        ⟨.STRING, str⟩, endRec] ⟨.TEXT, .ints []⟩ =
      .ok (.text ⟨.plist [], l, tt, none, none, none, none, none, none,
        [p], str⟩, [])) ∧
    (∀ (l nt : Int) (p1 : Int × Int) (ps : List (Int × Int)),
      ElementBase.load [iRec .LAYER l, iRec .NODETYPE nt,
        xyRec (p1 :: ps), endRec] ⟨.NODE, .ints []⟩ =
      .ok (.node ⟨.plist [], l, nt, p1 :: ps⟩, [])) ∧
    (∀ (l bt : Int) (p1 p2 p3 p4 p5 : Int × Int),
      ElementBase.load [iRec .LAYER l, iRec .BOXTYPE bt,
        xyRec [p1, p2, p3, p4, p5], endRec] ⟨.BOX, .ints []⟩ =
      .ok (.box ⟨.plist [], l, bt, [p1, p2, p3, p4, p5]⟩, [])) ∧
    ElementBase.load [iRec .LAYER 1, iRec .DATATYPE 0,
      xyRec [(0, 0), (0, 10), (10, 10), (10, 0)], endRec]
      ⟨.BOUNDARY, .ints []⟩ =
    .ok (.boundary ⟨.plist [], 1, 0, [(0, 0), (0, 10), (10, 10), (10, 0)]⟩,
      []) := by
  refine ⟨?_, ?_, ?_, fun name c r p1 p2 p3 => rfl, fun l tt p str => rfl,
    ?_, fun l bt p1 p2 p3 p4 p5 => rfl, rfl⟩
  · intro l d p1 p2 p3 p4 ps
    simp [ElementBase.load, tag_to_class_map, ElemClass.newAndRead,
      BoundaryElement.read_element, BoundaryElement.init,
      ElementWithLayerAndDataType.read_start, ElementWithLayer.read_start,
      ElementBase.read_start, ElementBase.read_rest, nextRec, ignoreRecord,
      Record.check_tag, Record.check_size, Record.int0, Record.points,
      Data.size, iRec, xyRec, endRec, pairUp_flattenPts,
      bind, Except.bind, pure, Except.pure, Functor.map, Except.map]
    rw [if_neg (by omega)]
  · intro l d p1 p2 ps
    simp [ElementBase.load, tag_to_class_map, ElemClass.newAndRead,
      PathElement.read_element, PathElement.init,
      ElementWithLayerAndDataType.read_start, ElementWithLayer.read_start,
      ElementBase.read_start, ElementBase.read_rest, nextRec, ignoreRecord,
      Record.check_tag, Record.check_size, Record.int0, Record.points,
      Data.size, iRec, xyRec, endRec, pairUp_flattenPts,
      bind, Except.bind, pure, Except.pure, Functor.map, Except.map]
    rw [if_neg (by omega)]
  · exact fun name p => rfl
  · intro l nt p1 ps
    simp [ElementBase.load, tag_to_class_map, ElemClass.newAndRead,
      NodeElement.read_element, NodeElement.init,
      ElementWithLayer.read_start,
      ElementBase.read_start, ElementBase.read_rest, nextRec, ignoreRecord,
      Record.check_tag, Record.check_size, Record.int0, Record.points,
      Data.size, iRec, xyRec, endRec, pairUp_flattenPts,
      bind, Except.bind, pure, Except.pure, Functor.map, Except.map]

/-- C5 has no hypotheses; C4 does, so instantiate it: Boundary with 3
points, Path with 1, StructureRef with 2, ArrayRef with 2, Text with 0,
Node with 0 and Box with 4 all fail with their point-count errors. -/
theorem c4_point_count_violation_witness :
    ElementBase.load [iRec .LAYER 1, iRec .DATATYPE 0,
      xyRec [(0, 0), (0, 10), (10, 10)], endRec] ⟨.BOUNDARY, .ints []⟩ =
      .error (.formatError "less then 4 points in BOUNDARY") ∧
    ElementBase.load [iRec .LAYER 1, iRec .DATATYPE 0, xyRec [(0, 0)],
      endRec] ⟨.PATH, .ints []⟩ =
      .error (.formatError "less then 2 points in PATH") ∧
    ElementBase.load [⟨.SNAME, .bytes [65]⟩, xyRec [(0, 0), (1, 1)],
      endRec] ⟨.SREF, .ints []⟩ =
      .error (.formatError "SREF should contain 1 point") ∧
    ElementBase.load [⟨.SNAME, .bytes [65]⟩, ⟨.COLROW, .ints [2, 3]⟩,
      xyRec [(0, 0), (1, 1)], endRec] ⟨.AREF, .ints []⟩ =
      .error (.formatError "AREF should contain 3 points") ∧
    ElementBase.load [iRec .LAYER 1, iRec .TEXTTYPE 0, xyRec [],
      ⟨.STRING, .bytes [77]⟩, endRec] ⟨.TEXT, .ints []⟩ =
      .error (.formatError "TEXT should contain 1 point") ∧
    ElementBase.load [iRec .LAYER 1, iRec .NODETYPE 0, xyRec [], endRec]
      ⟨.NODE, .ints []⟩ =
      .error (.formatError "NODE should contain at least 1 point") ∧
    ElementBase.load [iRec .LAYER 1, iRec .BOXTYPE 0,
      xyRec [(0, 0), (0, 1), (1, 1), (1, 0)], endRec] ⟨.BOX, .ints []⟩ =
      .error (.formatError "BOX should contain 5 points") :=
  ⟨c4_point_count_violation.1 [(0, 0), (0, 10), (10, 10)] (by decide),
    c4_point_count_violation.2.1 [(0, 0)] (by decide),
    c4_point_count_violation.2.2.1 [(0, 0), (1, 1)] (by decide),
    c4_point_count_violation.2.2.2.1 [(0, 0), (1, 1)] (by decide),
    c4_point_count_violation.2.2.2.2.1 [] (by decide),
    c4_point_count_violation.2.2.2.2.2.1 [] (by decide),
    c4_point_count_violation.2.2.2.2.2.2 [(0, 0), (0, 1), (1, 1), (1, 0)]
      (by decide)⟩

/-- Records of an optional whole-payload field. -/
def optDataRec (t : Tag) (o : Option Data) : List Record :=
  match o with
  | none => []
  | some v => [⟨t, v⟩]

/-- C6: for every variant carrying optional fields, a stream with any
subset of the optional records present in correct relative order decodes
successfully; absent optional fields read back as `none` and present ones
read back exactly as supplied — including the concrete Text scenario with
layer 5, text type 0, all optionals absent, one point (100, 200) and
string "M1". -/
theorem c6_optional_fields_roundtrip :
    (∀ (l d : Int) (o1 o2 o3 o4 : Option Int) (p1 p2 : Int × Int),
      ElementBase.load
        ([iRec .LAYER l, iRec .DATATYPE d] ++ optIntRec .PATHTYPE o1 ++
          optIntRec .WIDTH o2 ++ optIntRec .BGNEXTN o3 ++
          optIntRec .ENDEXTN o4 ++ [xyRec [p1, p2], endRec])
        ⟨.PATH, .ints []⟩ =
      .ok (.path ⟨.plist [], l, d, o1, o2, o3, o4, [p1, p2]⟩, [])) ∧
    (∀ (name : Data) (tb : TransBlock) (p : Int × Int),
      ElementBase.load
        ([⟨.SNAME, name⟩] ++ transBlockRecs tb ++ [xyRec [p], endRec])
        ⟨.SREF, .ints []⟩ =
      .ok (.sref ⟨.plist [], name, tb.strans, tb.mag, tb.angle, [p]⟩, [])) ∧
    (∀ (name : Data) (tb : TransBlock) (c r : Int) (p1 p2 p3 : Int × Int),
      ElementBase.load
        ([⟨.SNAME, name⟩] ++ transBlockRecs tb ++
          [⟨.COLROW, .ints [c, r]⟩, xyRec [p1, p2, p3], endRec])
        ⟨.AREF, .ints []⟩ =
      .ok (.aref ⟨.plist [], name, tb.strans, tb.mag, tb.angle,
        [p1, p2, p3], c, r⟩, [])) ∧
    (∀ (l tt : Int) (po : Option Data) (pt wo : Option Int)
        (tb : TransBlock) (p : Int × Int) (str : Data),
      ElementBase.load
        ([iRec .LAYER l, iRec .TEXTTYPE tt] ++ optDataRec .PRESENTATION po ++
          optIntRec .PATHTYPE pt ++ optIntRec .WIDTH wo ++
          transBlockRecs tb ++ [xyRec [p], ⟨.STRING, str⟩, endRec])
        ⟨.TEXT, .ints []⟩ =
      .ok (.text ⟨.plist [], l, tt, po, pt, wo, tb.strans, tb.mag, tb.angle,
        [p], str⟩, [])) ∧
    ElementBase.load [iRec .LAYER 5, iRec .TEXTTYPE 0, xyRec [(100, 200)],
      ⟨.STRING, .bytes [77, 49]⟩, endRec] ⟨.TEXT, .ints []⟩ =
    .ok (.text ⟨.plist [], 5, 0, none, none, none, none, none, none,
      [(100, 200)], .bytes [77, 49]⟩, []) := by
  refine ⟨?_, ?_, ?_, ?_, rfl⟩
  · intro l d o1 o2 o3 o4 p1 p2
    cases o1 <;> cases o2 <;> cases o3 <;> cases o4 <;> rfl
  · intro name tb p
    rcases tb with _ | ⟨s, _ | m, _ | a⟩ <;> rfl
  · intro name tb c r p1 p2 p3
    rcases tb with _ | ⟨s, _ | m, _ | a⟩ <;> rfl
  · intro l tt po pt wo tb p str
    rcases tb with _ | ⟨s, _ | m, _ | a⟩ <;> cases po <;> cases pt <;>
      cases wo <;> rfl

/-- C8: in the StructureRef and Text transform block, a `STRANS` record
followed by neither `MAG` nor `ANGLE` is accepted with `mag` and `angle`
left absent, and `MAG`/`ANGLE` are only attempted for consumption after a
`STRANS` record: without one, a `MAG` or `ANGLE` record sits where the
grammar demands the coordinate record and decoding fails with the
tag-check's `UnexpectedTag`. -/
theorem c8_strans_block_behaviour :
    (∀ (name s : Data) (p : Int × Int),
      ElementBase.load [⟨.SNAME, name⟩, ⟨.STRANS, s⟩, xyRec [p], endRec]
        ⟨.SREF, .ints []⟩ =
      .ok (.sref ⟨.plist [], name, some s, none, none, [p]⟩, [])) ∧
    (∀ (l tt : Int) (s : Data) (p : Int × Int) (str : Data),
      ElementBase.load [iRec .LAYER l, iRec .TEXTTYPE tt, ⟨.STRANS, s⟩,
        xyRec [p], ⟨.STRING, str⟩, endRec] ⟨.TEXT, .ints []⟩ =
      .ok (.text ⟨.plist [], l, tt, none, none, none, some s, none, none,
        [p], str⟩, [])) ∧
    (∀ (name : Data) (m : Rat) (p : Int × Int),
      ElementBase.load [⟨.SNAME, name⟩, rRec .MAG m, xyRec [p], endRec]
        ⟨.SREF, .ints []⟩ = .error .unexpectedTag) ∧
    (∀ (name : Data) (a : Rat) (p : Int × Int),
      ElementBase.load [⟨.SNAME, name⟩, rRec .ANGLE a, xyRec [p], endRec]
        ⟨.SREF, .ints []⟩ = .error .unexpectedTag) :=
  ⟨fun _ _ _ => rfl, fun _ _ _ _ _ => rfl,
    fun _ _ _ => rfl, fun _ _ _ => rfl⟩

/-- C9: for every variant carrying a layer number, the layer prefix (and
the datatype record where applicable) fails with `SizeMismatch` when the
record carries two integers instead of one, and with `UnexpectedTag` when
the expected record's tag is absent; the decode returns an error, so no
element with the ill-sized data is produced. -/
theorem c9_layer_prefix_size_and_tag :
    (∀ a b : Int,
      ElementBase.load [⟨.LAYER, .ints [a, b]⟩, iRec .DATATYPE 0,
        xyRec [(0, 0), (0, 1), (1, 1), (1, 0)], endRec]
        ⟨.BOUNDARY, .ints []⟩ = .error .sizeMismatch) ∧
    (∀ a b : Int,
      ElementBase.load [⟨.LAYER, .ints [a, b]⟩, iRec .DATATYPE 0,
        xyRec [(0, 0), (1, 1)], endRec] ⟨.PATH, .ints []⟩ =
        .error .sizeMismatch) ∧
    (∀ a b : Int,
      ElementBase.load [⟨.LAYER, .ints [a, b]⟩, iRec .TEXTTYPE 0,
        xyRec [(0, 0)], ⟨.STRING, .bytes [77]⟩, endRec]
        ⟨.TEXT, .ints []⟩ = .error .sizeMismatch) ∧
    (∀ a b : Int,
      ElementBase.load [⟨.LAYER, .ints [a, b]⟩, iRec .NODETYPE 0,
        xyRec [(0, 0)], endRec] ⟨.NODE, .ints []⟩ =
        .error .sizeMismatch) ∧
    (∀ a b : Int,
      ElementBase.load [⟨.LAYER, .ints [a, b]⟩, iRec .BOXTYPE 0,
        xyRec [(0, 0), (0, 1), (1, 1), (1, 0), (0, 0)], endRec]
        ⟨.BOX, .ints []⟩ = .error .sizeMismatch) ∧
    (∀ l a b : Int,
      ElementBase.load [iRec .LAYER l, ⟨.DATATYPE, .ints [a, b]⟩,
        xyRec [(0, 0), (0, 1), (1, 1), (1, 0)], endRec]
        ⟨.BOUNDARY, .ints []⟩ = .error .sizeMismatch) ∧
    (∀ d : Int,
      ElementBase.load [iRec .DATATYPE d,
        xyRec [(0, 0), (0, 1), (1, 1), (1, 0)], endRec]
        ⟨.BOUNDARY, .ints []⟩ = .error .unexpectedTag) ∧
    (∀ l : Int,
      ElementBase.load [iRec .LAYER l,
        xyRec [(0, 0), (0, 1), (1, 1), (1, 0)], endRec]
        ⟨.BOUNDARY, .ints []⟩ = .error .unexpectedTag) :=
  ⟨fun _ _ => rfl, fun _ _ => rfl, fun _ _ => rfl, fun _ _ => rfl,
    fun _ _ => rfl, fun _ _ _ => rfl, fun _ => rfl, fun _ => rfl⟩

deriving instance DecidableEq for Except

/-! ### Enumeration of optional-field orderings -/

/-- The four optional single-field records of the Path grammar. -/
inductive PathOpt where
  | ptype | wid | bgn | fin
  deriving DecidableEq, Repr

/-- Canonical position of a Path optional field in the fixed order
`PATHTYPE`, `WIDTH`, `BGNEXTN`, `ENDEXTN`. -/
def PathOpt.idx : PathOpt → Nat
  | .ptype => 0
  | .wid => 1
  | .bgn => 2
  | .fin => 3

/-- A record supplying a Path optional field (value 1). -/
def PathOpt.toRec : PathOpt → Record
  | .ptype => iRec .PATHTYPE 1
  | .wid => iRec .WIDTH 1
  | .bgn => iRec .BGNEXTN 1
  | .fin => iRec .ENDEXTN 1

/-- The four leading optional records of the Text grammar. -/
inductive TextOpt where
  | pres | ptype | wid | strans
  deriving DecidableEq, Repr

/-- Canonical position of a Text optional field in the fixed order
`PRESENTATION`, `PATHTYPE`, `WIDTH`, `STRANS`. -/
def TextOpt.idx : TextOpt → Nat
  | .pres => 0
  | .ptype => 1
  | .wid => 2
  | .strans => 3

/-- A record supplying a Text optional field. -/
def TextOpt.toRec : TextOpt → Record
  | .pres => ⟨.PRESENTATION, .bytes [0, 0]⟩
  | .ptype => iRec .PATHTYPE 1
  | .wid => iRec .WIDTH 1
  | .strans => ⟨.STRANS, .bytes [0, 0]⟩

/-- All ways of inserting an element into a list. -/
def insertions {α : Type} (x : α) : List α → List (List α)
  | [] => [[x]]
  | y :: ys => (x :: y :: ys) :: (insertions x ys).map (y :: ·)

/-- All permutations of a list. -/
def perms {α : Type} : List α → List (List α)
  | [] => [[]]
  | x :: xs => ((perms xs).map (insertions x)).flatten

/-- All sublists of a list. -/
def subLists {α : Type} : List α → List (List α)
  | [] => [[]]
  | x :: xs => subLists xs ++ (subLists xs).map (x :: ·)

/-- All duplicate-free sequences drawn from a list: every permutation of
every sublist. -/
def distinctSeqs {α : Type} (l : List α) : List (List α) :=
  ((subLists l).map perms).flatten

/-- Whether a sequence of canonical positions respects the fixed relative
order. -/
def strictlyAscending : List Nat → Bool
  | a :: b :: rest => decide (a < b) && strictlyAscending (b :: rest)
  | _ => true

/-- Every duplicate-free sequence of Path optional fields (65 in all). -/
def allPathSeqs : List (List PathOpt) :=
  distinctSeqs [PathOpt.ptype, .wid, .bgn, .fin]

/-- Every duplicate-free sequence of Text optional fields. -/
def allTextSeqs : List (List TextOpt) :=
  distinctSeqs [TextOpt.pres, .ptype, .wid, .strans]

/-- C7: supplying optional field records out of their fixed relative order
fails with the tag-check's `UnexpectedTag`: the claim's example (a Path
stream with `WIDTH` before `PATHTYPE`, arbitrary values), every
duplicate-free out-of-order sequence of the four Path optional fields,
every duplicate-free out-of-order sequence of the four Text optional
fields, and `ANGLE` before `MAG` inside a StructureRef transform block. -/
theorem c7_out_of_order_optionals_fail :
    (∀ (l d w pv : Int) (p1 p2 : Int × Int),
      ElementBase.load [iRec .LAYER l, iRec .DATATYPE d, iRec .WIDTH w,
        iRec .PATHTYPE pv, xyRec [p1, p2], endRec] ⟨.PATH, .ints []⟩ =
      .error .unexpectedTag) ∧
    (∀ L ∈ allPathSeqs, strictlyAscending (L.map PathOpt.idx) = false →
      ElementBase.load
        ([iRec .LAYER 1, iRec .DATATYPE 0] ++ L.map PathOpt.toRec ++
          [xyRec [(0, 0), (1, 1)], endRec]) ⟨.PATH, .ints []⟩ =
      .error .unexpectedTag) ∧
    (∀ L ∈ allTextSeqs, strictlyAscending (L.map TextOpt.idx) = false →
      ElementBase.load
        ([iRec .LAYER 1, iRec .TEXTTYPE 0] ++ L.map TextOpt.toRec ++
          [xyRec [(0, 0)], ⟨.STRING, .bytes [77]⟩, endRec])
        ⟨.TEXT, .ints []⟩ =
      .error .unexpectedTag) ∧
    (∀ (name : Data) (a m : Rat) (p : Int × Int),
      ElementBase.load [⟨.SNAME, name⟩, ⟨.STRANS, .bytes [0, 0]⟩,
        rRec .ANGLE a, rRec .MAG m, xyRec [p], endRec] ⟨.SREF, .ints []⟩ =
      .error .unexpectedTag) := by
  refine ⟨fun _ _ _ _ _ _ => rfl, by decide, by decide, fun _ _ _ _ => rfl⟩

/-- C7 witness: `WIDTH` before `PATHTYPE` is an out-of-order Path sequence
and fails, and `STRANS` before `PRESENTATION` is an out-of-order Text
sequence and fails. -/
theorem c7_out_of_order_optionals_fail_witness :
    ([PathOpt.wid, .ptype] ∈ allPathSeqs ∧
      strictlyAscending ([PathOpt.wid, .ptype].map PathOpt.idx) = false ∧
      ElementBase.load
        ([iRec .LAYER 1, iRec .DATATYPE 0] ++
          [PathOpt.wid, .ptype].map PathOpt.toRec ++
          [xyRec [(0, 0), (1, 1)], endRec]) ⟨.PATH, .ints []⟩ =
      .error .unexpectedTag) ∧
    ([TextOpt.strans, .pres] ∈ allTextSeqs ∧
      strictlyAscending ([TextOpt.strans, .pres].map TextOpt.idx) = false ∧
      ElementBase.load
        ([iRec .LAYER 1, iRec .TEXTTYPE 0] ++
          [TextOpt.strans, .pres].map TextOpt.toRec ++
          [xyRec [(0, 0)], ⟨.STRING, .bytes [77]⟩, endRec])
        ⟨.TEXT, .ints []⟩ =
      .error .unexpectedTag) :=
  ⟨⟨by decide, by decide,
    c7_out_of_order_optionals_fail.2.1 [PathOpt.wid, .ptype] (by decide)
      (by decide)⟩,
   ⟨by decide, by decide,
    c7_out_of_order_optionals_fail.2.2.1 [TextOpt.strans, .pres] (by decide)
      (by decide)⟩⟩
